import Mathlib

/-!
# Alluxio CSI node server (`csi/alluxio/nodeserver.go`)

A shallow embedding of the node-side volume lifecycle of the Alluxio CSI
driver: the naming of the Fuse pod, the construction of the pod object from
its template, the idempotent create, the mount-point reconciliation and the
four lifecycle calls.

Conventions of the embedding.

* A Go `string` is a sequence of bytes (`GoString`); `len` counts bytes and
  the slice expression `s[:n]` is byte-based.
* A Go run-time panic (slice bounds out of range, index out of range, nil
  pointer dereference, failed type assertion) is an explicit `Except Panic`
  result: `.error p` is a call that faults, `.ok v` one that returns `v`.
* A Go `error` value is `Option GoError`, `none` being `nil`.
* The Kubernetes API server and the operating system are collaborators whose
  answers the code cannot influence. They are given as a record of
  operations over an arbitrary system state `σ`; every call the code makes is
  also appended to a log, so that "which commands were issued" is a
  statement about the log.
-/

namespace Alluxio

/-! ## Go strings -/

/-- A Go string: an immutable sequence of bytes. -/
abbrev GoString := List UInt8

/-- The bytes of a string literal (Go source files are UTF-8). -/
def lit (s : String) : GoString := s.data.flatMap String.utf8EncodeChar

/-- The byte `-`. -/
def dash : UInt8 := 45

deriving instance DecidableEq for Except

/-- Run-time panics of the Go code. -/
inductive Panic where
  | sliceOutOfRange (high len : Nat)
  | indexOutOfRange (index : Int) (len : Nat)
  | nilDereference
  | typeAssertion
  deriving DecidableEq, Repr

/-- The slice expression `s[:n]` on a string: the first `n` bytes when
`n ≤ len(s)`, a run-time panic otherwise. -/
def sliceTo (s : GoString) (n : Nat) : Except Panic GoString :=
  if n ≤ s.length then .ok (s.take n) else .error (.sliceOutOfRange n s.length)

/-- The index expression `xs[i]` on a slice, with `i` a Go `int`: the element
when `0 ≤ i < len(xs)`, a run-time panic otherwise. -/
def index {α : Type} (xs : List α) (i : Int) : Except Panic α :=
  if i < 0 then .error (.indexOutOfRange i xs.length)
  else match xs.get? i.toNat with
    | some x => .ok x
    | none => .error (.indexOutOfRange i xs.length)

/-- Go `strings.Split(s, sep)` for a one-byte separator: the substrings between
the occurrences of `sep`; always at least one element. -/
def Split (sep : UInt8) : GoString → List GoString
  | [] => [[]]
  | c :: cs =>
    if c = sep then [] :: Split sep cs
    else match Split sep cs with
      | [] => [[c]]
      | p :: ps => (c :: p) :: ps

/-- Go `strings.Join(elems, sep)`. -/
def Join (elems : List GoString) (sep : GoString) : GoString :=
  sep.intercalate elems

/-- Go `strings.Contains(s, substr)`. -/
def Contains (s substr : GoString) : Bool :=
  s.tails.any (fun t => substr.isPrefixOf t)

/-! ## Pod naming -/

/-- Go `getFusePodName(clusterName, nodeId, volumeId)`, nodeserver.go:269. -/
def getFusePodName (clusterName nodeId volumeId : GoString) : Except Panic GoString := do
  let volumeIdParts := Split dash volumeId
  let last ← index volumeIdParts ((volumeIdParts.length : Int) - 1)
  return Join [clusterName, nodeId, last] [dash]

/-! ## Errors -/

/-- The operating-system error numbers the code distinguishes, through
`os.IsNotExist`, `os.IsPermission` and `mount.IsCorruptedMnt`. -/
inductive Errno where
  | ENOENT | EACCES | EPERM | EIO | ENOTCONN | ESTALE | EINVAL | ENOMEM
  deriving DecidableEq, Repr

/-- A non-nil Go `error`: the text of `err.Error()` and the system error
number underneath it, when there is one that the `os` predicates can see. -/
structure GoError where
  msg : GoString
  errno : Option Errno
  deriving DecidableEq, Repr

/-- Go `os.IsNotExist(err)` for a non-nil error. -/
def IsNotExist (e : GoError) : Bool := e.errno == some .ENOENT

/-- Go `os.IsPermission(err)` for a non-nil error. -/
def IsPermission (e : GoError) : Bool :=
  e.errno == some .EACCES || e.errno == some .EPERM

/-- Go `mount.IsCorruptedMnt(err)` of `k8s.io/utils/mount`: the error numbers
that a mount point whose backing process is gone produces. -/
def IsCorruptedMnt (e : GoError) : Bool :=
  e.errno == some .ENOTCONN || e.errno == some .ESTALE ||
    e.errno == some Errno.EIO || e.errno == some .EACCES

/-- Go `errors.Wrap(err, message)` of `github.com/pkg/errors`: `nil` when `err`
is `nil`, otherwise an error whose text is `message: err.Error()`. The
wrapper hides the cause from the `os` predicates. -/
def Wrap (err : Option GoError) (message : GoString) : Option GoError :=
  match err with
  | none => none
  | some e => some { msg := message ++ lit ": " ++ e.msg, errno := none }

/-- Go `errors.Wrapf(err, format, args...)`, the format already applied. -/
def Wrapf (err : Option GoError) (message : GoString) : Option GoError :=
  Wrap err message

/-- The gRPC status codes the node server returns. -/
inductive Code where
  | Internal | PermissionDenied | InvalidArgument | Unimplemented
  deriving DecidableEq, Repr

/-- What a lifecycle call hands back: `(&Response{}, nil)` or
`(nil, status.Error(code, message))`. -/
inductive RpcResult where
  | ok
  | error (code : Code) (message : GoString)
  deriving DecidableEq, Repr

/-! ## Kubernetes objects -/

/-- A Go `map[string]string`; a missing key reads as the empty string. -/
abbrev StringMap := List (GoString × GoString)

/-- The map read `m[k]`. -/
def StringMap.at (m : StringMap) (k : GoString) : GoString :=
  (m.lookup k).getD []

/-- The fields of `v1.Container` the code touches: `Args` and the command of
`Lifecycle.PreStop.Exec` (`none` when there is no lifecycle). -/
structure Container where
  Args : List GoString
  PreStop : Option (List GoString)
  deriving DecidableEq, Repr

/-- The fields of `v1.Pod` the code touches. -/
structure Pod where
  Name : GoString
  Namespace : GoString
  NodeName : GoString
  Containers : List Container
  deriving DecidableEq, Repr

/-- A decoded `runtime.Object`: a `*v1.Pod` or an object of another type. -/
inductive RuntimeObject where
  | pod (p : Pod)
  | other
  deriving DecidableEq, Repr

/-- The successful result of `Decode`: the object and the `Kind` of its
group-version-kind. -/
structure Decoded where
  obj : RuntimeObject
  kind : GoString
  deriving DecidableEq, Repr

/-- Go `types.NamespacedName`. -/
structure NamespacedName where
  Namespace : GoString
  Name : GoString
  deriving DecidableEq, Repr

/-- Go `csi.NodeStageVolumeRequest`. -/
structure NodeStageVolumeRequest where
  VolumeId : GoString
  StagingTargetPath : GoString
  VolumeContext : StringMap
  deriving DecidableEq, Repr

/-- Go `csi.NodeUnstageVolumeRequest`. -/
structure NodeUnstageVolumeRequest where
  VolumeId : GoString
  StagingTargetPath : GoString
  deriving DecidableEq, Repr

/-- Go `csi.NodePublishVolumeRequest`. -/
structure NodePublishVolumeRequest where
  TargetPath : GoString
  StagingTargetPath : GoString
  deriving DecidableEq, Repr

/-- Go `csi.NodeUnpublishVolumeRequest`. -/
structure NodeUnpublishVolumeRequest where
  TargetPath : GoString
  deriving DecidableEq, Repr

/-! ## The collaborators -/

/-- The API server and the operating system, over a system state `σ`.
A read returns its answer; a write returns its error (or `none`) and the
next state. -/
structure System (σ : Type) where
  /-- Go `ConfigMaps(ns).Get(name)`: the `Data` of the config map. -/
  getConfigMap : σ → GoString → GoString → Except GoError StringMap
  /-- Go `UniversalDeserializer().Decode(bytes)`. -/
  decode : GoString → Except GoError Decoded
  /-- Go `Pods(pod.Namespace).Create(pod)`. -/
  createPod : σ → Pod → Option GoError × σ
  /-- Go `Pods(ns).Delete(name)`. -/
  deletePod : σ → GoString → GoString → Option GoError × σ
  /-- Go `PersistentVolumes().Get(volumeId)`: its `Spec.StorageClassName`. -/
  getPersistentVolume : σ → GoString → Except GoError GoString
  /-- Go `StorageClasses().Get(name)`: its `Parameters`. -/
  getStorageClass : σ → GoString → Except GoError StringMap
  /-- Go `mounter.IsLikelyNotMountPoint(path)`; the mount library computes it
  from `stat`, as `IsLikelyNotMountPoint` below does. -/
  isLikelyNotMountPoint : σ → GoString → Bool × Option GoError
  /-- The error of `os.Stat(path)`. -/
  stat : σ → GoString → Option GoError
  /-- Go `os.MkdirAll(path, 0750)`. -/
  mkdirAll : σ → GoString → Option GoError × σ
  /-- Go `mounter.Unmount(path)`. -/
  unmount : σ → GoString → Option GoError × σ
  /-- The command `mount --bind src dst`. -/
  execMountBind : σ → GoString → GoString → Option GoError × σ
  /-- The command `umount path`. -/
  execUmount : σ → GoString → Option GoError × σ
  /-- The command `sh -c "mount | grep path | grep alluxio-fuse"`. -/
  execMountGrep : σ → GoString → Option GoError
  /-- Go `mount.CleanupMountPoint(path, mounter, false)`. -/
  cleanupMountPoint : σ → GoString → Option GoError × σ

/-- A call that can change the system, as recorded in the log. -/
inductive Call where
  | createPod (ns name : GoString)
  | deletePod (ns name : GoString)
  | mkdirAll (path : GoString)
  | unmount (path : GoString)
  | execMountBind (src dst : GoString)
  | execUmount (path : GoString)
  | cleanupMountPoint (path : GoString)
  deriving DecidableEq, Repr

/-- The system state together with the calls issued so far, oldest first. -/
structure World (σ : Type) where
  sys : σ
  log : List Call

/-- Issue a state-changing call: record it and move to the next state. -/
def World.issue {σ : Type} (w : World σ) (c : Call) (r : Option GoError × σ) :
    Option GoError × World σ :=
  (r.1, { sys := r.2, log := w.log ++ [c] })

/-- The assignment `xs[i] = v` on a slice, with `i` a constant index: a
run-time panic when `i` is not below `len(xs)`. -/
def setIndex {α : Type} (xs : List α) (i : Nat) (v : α) : Except Panic (List α) :=
  if i < xs.length then .ok (xs.set i v) else .error (.indexOutOfRange i xs.length)

/-! ## Mount-point reconciliation -/

/-- Go `mounter.IsLikelyNotMountPoint(file)` of `k8s.io/utils/mount` on Linux:
a `stat` of the file, then a `stat` of its parent directory, then the
comparison of their devices; the first `stat` that fails gives `(true, err)`.
Here `stat` gives the error of `os.Stat`, `dev` the device of a path and
`parentOf` stands for `filepath.Dir(strings.TrimSuffix(file, "/"))`. -/
def IsLikelyNotMountPoint (stat : GoString → Option GoError) (dev : GoString → Nat)
    (parentOf : GoString → GoString) (file : GoString) : Bool × Option GoError :=
  match stat file with
  | some err => (true, some err)
  | none =>
    match stat (parentOf file) with
    | some err => (true, some err)
    | none => if dev file ≠ dev (parentOf file) then (false, none) else (true, none)

/-- Go `mount.PathExists(path)` of `k8s.io/utils/mount`: a `stat` of the path,
whose not-exist error becomes `(false, nil)`. -/
def PathExists {σ : Type} (S : System σ) (s : σ) (path : GoString) : Bool × Option GoError :=
  match S.stat s path with
  | none => (true, none)
  | some err =>
    if IsNotExist err then (false, none)
    else if IsCorruptedMnt err then (true, some err)
    else (false, some err)

/-- Go `isCorruptedDir(dir)`, nodeserver.go:222. -/
def isCorruptedDir {σ : Type} (S : System σ) (s : σ) (dir : GoString) : Bool :=
  let (_, pathErr) := PathExists S s dir
  match pathErr with
  | none => false
  | some e => IsCorruptedMnt e

/-- Go `ensureMountPoint(targetPath)`, nodeserver.go:228: the pair
`(notMnt, err)` and the world after the call. -/
def ensureMountPoint {σ : Type} (S : System σ) (w : World σ) (targetPath : GoString) :
    (Bool × Option GoError) × World σ :=
  let (notMnt, err) := S.isLikelyNotMountPoint w.sys targetPath
  match err with
  | none => ((notMnt, none), w)
  | some e =>
    if IsNotExist e then
      let (mkErr, w1) := w.issue (.mkdirAll targetPath) (S.mkdirAll w.sys targetPath)
      match mkErr with
      | some e1 => ((notMnt, Wrapf (some e1) (lit "Error creating dir " ++ targetPath)), w1)
      | none => ((true, none), w1)
    else if isCorruptedDir S w.sys targetPath then
      let (umErr, w1) := w.issue (.unmount targetPath) (S.unmount w.sys targetPath)
      match umErr with
      | some e1 =>
        ((false, Wrapf (some e1) (lit "Filed to umount corrupted path " ++ targetPath)), w1)
      | none => ((true, none), w1)
    else
      ((notMnt, Wrapf (some e)
        (lit "Failed to check if target path " ++ targetPath ++ lit " is a mount point.")), w)

/-- Go `checkIfMountPointReady(mountPoint)`, nodeserver.go:163. -/
def checkIfMountPointReady {σ : Type} (S : System σ) (s : σ) (mountPoint : GoString) :
    Option GoError :=
  Wrap (S.execMountGrep s mountPoint)
    (lit "Mount point is not ready, or error occurs while checking.")

/-! ## The Fuse pod -/

/-- Go `getFusePodObj(ns, alluxioNamespacedName)`, nodeserver.go:251: the pair
`(pod, err)`, the pod pointer being `none` for `nil`. -/
def getFusePodObj {σ : Type} (S : System σ) (s : σ) (alluxioNamespacedName : NamespacedName) :
    Except Panic (Option Pod × Option GoError) :=
  let fuseConfigmapName := alluxioNamespacedName.Name ++ lit "-csi-fuse-config"
  match S.getConfigMap s alluxioNamespacedName.Namespace fuseConfigmapName with
  | .error e =>
    .ok (none, Wrapf (some e) (lit "Failed to find the configmap containing fuse pod object."))
  | .ok data =>
    let csiFuseYaml := data.at (lit "alluxio-csi-fuse.yaml")
    match S.decode csiFuseYaml with
    | .error e => .ok (none, Wrapf (some e) (lit "Error decoding CSI Fuse yaml file to object."))
    | .ok decoded =>
      -- the decode succeeded: the variable `err` holds `nil` from here on
      let err : Option GoError := none
      if decoded.kind ≠ lit "Pod" then
        .ok (none, Wrapf err
          (lit "CSI Fuse only supports Kind Pod. " ++ decoded.kind ++ lit " found."))
      else
        match decoded.obj with
        | .pod p => .ok (some p, none)
        | .other => .error .typeAssertion

/-- Go `getAndCompleteFusePodObj(ns, req)`, nodeserver.go:119, `nodeId` being
`ns.nodeId`. The right-hand side of the first assignment, with its slice
`[:64]`, is evaluated before the pod pointer is dereferenced. -/
def getAndCompleteFusePodObj {σ : Type} (S : System σ) (nodeId : GoString) (s : σ)
    (req : NodeStageVolumeRequest) : Except Panic (Option Pod × Option GoError) := do
  let alluxioNamespacedName : NamespacedName :=
    { Namespace := req.VolumeContext.at (lit "alluxioClusterNamespace")
      Name := req.VolumeContext.at (lit "alluxioClusterName") }
  let (csiFusePodObj, err) ← getFusePodObj S s alluxioNamespacedName
  if err.isSome then
    return (none, Wrap err (lit "Error getting Fuse pod object from template."))
  let fullName ← getFusePodName alluxioNamespacedName.Name nodeId req.VolumeId
  let name ← sliceTo fullName 64
  match csiFusePodObj with
  | none => throw .nilDereference
  | some pod =>
    let pod := { pod with Name := name }
    let pod := { pod with Namespace := alluxioNamespacedName.Namespace }
    let pod := { pod with NodeName := nodeId }
    let c0 ← index pod.Containers 0
    let args ← setIndex c0.Args 2 req.StagingTargetPath
    let c0 := { c0 with Args := args }
    let lifecycle : List GoString :=
      [lit "/opt/alluxio/integration/fuse/bin/alluxio-fuse", lit "unmount", req.StagingTargetPath]
    let c0 := { c0 with PreStop := some lifecycle }
    return (some { pod with Containers := pod.Containers.set 0 c0 }, none)

/-- Go `ns.createFusePodIfNotExist(fusePod)`, nodeserver.go:152. -/
def createFusePodIfNotExist {σ : Type} (S : System σ) (w : World σ) (fusePod : Pod) :
    Option GoError × World σ :=
  let (err, w1) := w.issue (.createPod fusePod.Namespace fusePod.Name) (S.createPod w.sys fusePod)
  match err with
  | some e =>
    if Contains e.msg (lit "already exists") then (none, w1)
    else (Wrap (some e) (lit "Error creating Fuse pod."), w1)
  | none => (none, w1)

/-! ## The lifecycle calls -/

/-- Go `ns.NodePublishVolume(ctx, req)`, nodeserver.go:56. -/
def NodePublishVolume {σ : Type} (S : System σ) (w : World σ) (req : NodePublishVolumeRequest) :
    RpcResult × World σ :=
  let targetPath := req.TargetPath
  let stagingPath := req.StagingTargetPath
  let ((notMnt, err), w1) := ensureMountPoint S w targetPath
  match err with
  | some e => (.error .Internal e.msg, w1)
  | none =>
    if !notMnt then (.ok, w1)
    else
      let (err, w2) :=
        w1.issue (.execMountBind stagingPath targetPath) (S.execMountBind w1.sys stagingPath targetPath)
      match err with
      | some e =>
        if IsPermission e then (.error .PermissionDenied e.msg, w2)
        else if Contains e.msg (lit "invalid argument") then (.error .InvalidArgument e.msg, w2)
        else (.error .Internal e.msg, w2)
      | none => (.ok, w2)

/-- Go `ns.NodeUnpublishVolume(ctx, req)`, nodeserver.go:88. -/
def NodeUnpublishVolume {σ : Type} (S : System σ) (w : World σ)
    (req : NodeUnpublishVolumeRequest) : RpcResult × World σ :=
  let targetPath := req.TargetPath
  let (_, w1) := w.issue (.cleanupMountPoint targetPath) (S.cleanupMountPoint w.sys targetPath)
  (.ok, w1)

/-- Go `ns.NodeStageVolume(ctx, req)`, nodeserver.go:100, `nodeId` being
`ns.nodeId`. The mutex is not modelled: calls are run one after the other. -/
def NodeStageVolume {σ : Type} (S : System σ) (nodeId : GoString) (w : World σ)
    (req : NodeStageVolumeRequest) : Except Panic (RpcResult × World σ) := do
  let (fusePod, err) ← getAndCompleteFusePodObj S nodeId w.sys req
  match err with
  | some e => return (.error .Internal e.msg, w)
  | none =>
    match fusePod with
    | none => throw .nilDereference
    | some fusePod =>
      let (err, w1) := createFusePodIfNotExist S w fusePod
      match err with
      | some e => return (.error .Internal e.msg, w1)
      | none =>
        match checkIfMountPointReady S w1.sys req.StagingTargetPath with
        | some e => return (.error .Internal e.msg, w1)
        | none => return (.ok, w1)

/-- Go `ns.NodeUnstageVolume(ctx, req)`, nodeserver.go:172, `nodeId` being
`ns.nodeId`. -/
def NodeUnstageVolume {σ : Type} (S : System σ) (nodeId : GoString) (w : World σ)
    (req : NodeUnstageVolumeRequest) : Except Panic (RpcResult × World σ) :=
  match S.getPersistentVolume w.sys req.VolumeId with
  | .error e => .ok (.error .Internal e.msg, w)
  | .ok storageClassName =>
    match S.getStorageClass w.sys storageClassName with
    | .error e => .ok (.error .Internal e.msg, w)
    | .ok parameters =>
      let alluxioNamespacedName : NamespacedName :=
        { Namespace := parameters.at (lit "alluxioClusterNamespace")
          Name := parameters.at (lit "alluxioClusterName") }
      match getFusePodName alluxioNamespacedName.Name nodeId req.VolumeId with
      | .error p => .error p
      | .ok podName =>
        let (err, w1) := w.issue (.deletePod alluxioNamespacedName.Namespace podName)
          (S.deletePod w.sys alluxioNamespacedName.Namespace podName)
        match err with
        | some e =>
          if Contains e.msg (lit "not found") then
            let (_, w2) := w1.issue (.execUmount req.StagingTargetPath)
              (S.execUmount w1.sys req.StagingTargetPath)
            .ok (.ok, w2)
          else .ok (.error .Internal e.msg, w1)
        | none => .ok (.ok, w1)

/-! ## A concrete collaborator

The API server's pod store as a set of pods keyed by namespace and name,
with fixed answers for every other call. It serves to run the code on
concrete requests. -/

/-- The byte `"`. -/
def quote : UInt8 := 34

/-- Whether the store holds a pod under the key `(ns, name)`. -/
def hasPod (pods : List Pod) (ns name : GoString) : Bool :=
  pods.any (fun p => p.Namespace == ns && p.Name == name)

/-- Create on the pod store: an existing key is refused with the API server's
`already exists` error, a new key is added. -/
def storeCreate (pods : List Pod) (pod : Pod) : Option GoError × List Pod :=
  if hasPod pods pod.Namespace pod.Name then
    (some { msg := lit "pods " ++ [quote] ++ pod.Name ++ [quote] ++ lit " already exists"
            errno := none }, pods)
  else (none, pods ++ [pod])

/-- Delete on the pod store: a missing key is refused with the API server's
`not found` error, an existing key is removed. -/
def storeDelete (pods : List Pod) (ns name : GoString) : Option GoError × List Pod :=
  if hasPod pods ns name then
    (none, pods.filter (fun p => !(p.Namespace == ns && p.Name == name)))
  else
    (some { msg := lit "pods " ++ [quote] ++ name ++ [quote] ++ lit " not found"
            errno := none }, pods)

/-- The fixed answers of the collaborator to the calls other than pod create
and delete. -/
structure Script where
  configMap : Except GoError StringMap
  decoded : Except GoError Decoded
  persistentVolume : Except GoError GoString
  storageClass : Except GoError StringMap
  notMnt : Bool × Option GoError
  stat : Option GoError
  mkdirAll : Option GoError
  unmount : Option GoError
  mountBind : Option GoError
  umount : Option GoError
  mountGrep : Option GoError
  cleanup : Option GoError

/-- The collaborator that keeps a pod store and answers by the script. -/
def scripted (k : Script) : System (List Pod) where
  getConfigMap := fun _ _ _ => k.configMap
  decode := fun _ => k.decoded
  createPod := storeCreate
  deletePod := storeDelete
  getPersistentVolume := fun _ _ => k.persistentVolume
  getStorageClass := fun _ _ => k.storageClass
  isLikelyNotMountPoint := fun _ _ => k.notMnt
  stat := fun _ _ => k.stat
  mkdirAll := fun s _ => (k.mkdirAll, s)
  unmount := fun s _ => (k.unmount, s)
  execMountBind := fun s _ _ => (k.mountBind, s)
  execUmount := fun s _ => (k.umount, s)
  execMountGrep := fun _ _ => k.mountGrep
  cleanupMountPoint := fun s _ => (k.cleanup, s)

/-- A well-formed Fuse pod template: kind `Pod`, one container, four
arguments of which the third is the mount point. -/
def podTemplate : Decoded where
  obj := .pod
    { Name := lit "alluxio-fuse"
      Namespace := []
      NodeName := []
      Containers := [{ Args := [lit "fuse", lit "-o", lit "/mnt/alluxio", lit "/"]
                       PreStop := none }] }
  kind := lit "Pod"

/-- A template that decodes without error to an object of another kind. -/
def deploymentTemplate : Decoded where
  obj := .other
  kind := lit "Deployment"

/-- The parameters that name the Alluxio cluster `clusterName` of the
`default` namespace, as a volume context or as storage-class parameters. -/
def clusterParams (clusterName : GoString) : StringMap :=
  [(lit "alluxioClusterName", clusterName), (lit "alluxioClusterNamespace", lit "default")]

/-- A script in which every call succeeds: the template is `template`, the
volume belongs to the cluster `clusterName`, the target is a directory that
is not mounted and the Fuse mount is ready. -/
def healthy (template : Decoded) (clusterName : GoString) : Script where
  configMap := .ok [(lit "alluxio-csi-fuse.yaml", lit "kind: Pod")]
  decoded := .ok template
  persistentVolume := .ok (lit "alluxio")
  storageClass := .ok (clusterParams clusterName)
  notMnt := (true, none)
  stat := none
  mkdirAll := none
  unmount := none
  mountBind := none
  umount := none
  mountGrep := none
  cleanup := none

/-- The stage request of the volume `volumeId` of the cluster `clusterName`. -/
def stageRequest (clusterName volumeId : GoString) : NodeStageVolumeRequest where
  VolumeId := volumeId
  StagingTargetPath := lit "/staging"
  VolumeContext := clusterParams clusterName

/-- The unstage request of the volume `volumeId`. -/
def unstageRequest (volumeId : GoString) : NodeUnstageVolumeRequest where
  VolumeId := volumeId
  StagingTargetPath := lit "/staging"

/-- A cluster name of seventy bytes `a`. -/
def longClusterName : GoString := List.replicate 70 97

/-- The publish request that binds `/staging` onto `/target`. -/
def publishRequest : NodePublishVolumeRequest where
  TargetPath := lit "/target"
  StagingTargetPath := lit "/staging"

/-- A stale-handle error, as a `stat` of a dead Fuse mount returns it. -/
def staleError : GoError where
  msg := lit "stat /target: stale NFS file handle"
  errno := some .ESTALE

/-- A stale-handle error of the directory `/mnt`. -/
def staleParentError : GoError where
  msg := lit "stat /mnt: stale NFS file handle"
  errno := some .ESTALE

/-- A permission error of a `stat`. -/
def statPermissionError : GoError where
  msg := lit "stat /target: permission denied"
  errno := some .EACCES

/-- The byte `/`. -/
def slash : UInt8 := 47

/-- The parent directory `filepath.Dir(strings.TrimSuffix(file, "/"))` of a
path in clean form, that is without `.`, `..` and empty elements: the path up
to its last separator, without that separator unless it is the root. -/
def parentDir (file : GoString) : GoString :=
  let trimmed := if file.getLast? = some slash then file.dropLast else file
  let dir := (trimmed.reverse.dropWhile (fun c => c != slash)).reverse
  let cleaned := (dir.reverse.dropWhile (fun c => c == slash)).reverse
  if cleaned = [] then (if dir = [] then lit "." else lit "/") else cleaned

/-- The `stat` errors of a node on which the directory `/mnt` answers with a
stale handle and every other path is fine. -/
def staleParentStat (path : GoString) : Option GoError :=
  if path = lit "/mnt" then some staleParentError else none

/-- The collaborator of that node: every path on one device, the inspection
being the one of the mount library. -/
def staleParent : System (List Pod) :=
  { scripted (healthy podTemplate (lit "c1")) with
    stat := fun _ path => staleParentStat path
    isLikelyNotMountPoint := fun _ path =>
      IsLikelyNotMountPoint staleParentStat (fun _ => 0) parentDir path }

/-- A permission error whose text mentions an invalid argument. -/
def permissionError : GoError where
  msg := lit "fork/exec /bin/mount: permission denied: invalid argument"
  errno := some .EACCES

/-- The API server's answer for a missing persistent volume. -/
def volumeNotFound : GoError where
  msg := lit "persistentvolumes pvc-123 not found"
  errno := none

/-- The API server's answer for a missing storage class. -/
def classNotFound : GoError where
  msg := lit "storageclasses alluxio not found"
  errno := none

/-- The world in which nothing has been issued yet. -/
def World.start {σ : Type} (s : σ) : World σ := { sys := s, log := [] }

end Alluxio

/-! ## Properties of the string layer -/

namespace Alluxio

/-- The literal `-` is the single byte `dash`. -/
theorem lit_dash : lit "-" = [dash] := rfl

/-- The shape of `Split`: a last part without separator, which is the input
itself when there is no earlier part and follows a separator otherwise. -/
theorem Split_shape (sep : UInt8) (v : GoString) :
    ∃ init s p, Split sep v = init ++ [s] ∧ sep ∉ s ∧ v = p ++ s ∧
      ((init = [] ∧ p = []) ∨ (init ≠ [] ∧ p.getLast? = some sep)) := by
  induction v with
  | nil => exact ⟨[], [], [], rfl, by simp, rfl, Or.inl ⟨rfl, rfl⟩⟩
  | cons c cs ih =>
    obtain ⟨init, s, p, hs, hmem, hv, hp⟩ := ih
    by_cases hc : c = sep
    · refine ⟨[] :: init, s, c :: p, ?_, hmem, ?_, Or.inr ⟨by simp, ?_⟩⟩
      · simp [Split, hc, hs]
      · simp [hv]
      · rcases hp with ⟨_, rfl⟩ | ⟨_, hl⟩
        · simp [hc]
        · cases p with
          | nil => simp at hl
          | cons a as => simpa [List.getLast?_cons_cons] using hl
    · cases init with
      | nil =>
        rcases hp with ⟨_, rfl⟩ | ⟨h, _⟩
        · refine ⟨[], c :: s, [], ?_, ?_, ?_, Or.inl ⟨rfl, rfl⟩⟩
          · simp [Split, hc, hs]
          · simp [hmem, Ne.symm hc]
          · simp [hv]
        · exact absurd rfl h
      | cons h t =>
        rcases hp with ⟨h0, _⟩ | ⟨_, hl⟩
        · exact absurd h0 (by simp)
        · refine ⟨(c :: h) :: t, s, c :: p, ?_, hmem, ?_, Or.inr ⟨by simp, ?_⟩⟩
          · simp [Split, hc, hs]
          · simp [hv]
          · cases p with
            | nil => simp at hl
            | cons a as => simpa [List.getLast?_cons_cons] using hl

/-- Indexing the last position of a non-empty slice is in bounds. -/
theorem index_last {α : Type} (init : List α) (s : α) :
    index (init ++ [s]) (((init ++ [s]).length : Int) - 1) = .ok s := by
  have h : (((init ++ [s]).length : Int) - 1) = (init.length : Int) := by
    simp
  rw [h]
  simp [index]

/-- The function `getFusePodName` never panics: it returns the three parts
joined by `-`. -/
theorem getFusePodName_total_name (clusterName nodeId volumeId : GoString) :
    ∃ s p : GoString,
      getFusePodName clusterName nodeId volumeId
        = .ok (clusterName ++ lit "-" ++ nodeId ++ lit "-" ++ s) ∧ volumeId = p ++ s := by
  obtain ⟨init, s, p, hs, -, hv, -⟩ := Split_shape dash volumeId
  refine ⟨s, p, ?_, hv⟩
  have hidx : index (Split dash volumeId) (((Split dash volumeId).length : Int) - 1) = .ok s := by
    rw [hs]; exact index_last init s
  simp only [getFusePodName, hidx, lit_dash]
  simp [Join, List.intercalate, List.intersperse, bind, Except.bind, pure, Except.pure]

/-- C5: `getFusePodName` always returns, and returns
`clusterName-nodeId-s` where `s` is the part of `volumeId` after its last `-`:
`volumeId` is `p ++ s` with `s` free of `-` and `p` empty or ending in `-`
(so `s` is the whole `volumeId` when that has no `-`, and empty when it ends
in `-`); the index `volumeIdParts[len-1]` is in bounds and yields `s`. -/
theorem getFusePodName_total_last_segment (clusterName nodeId volumeId : GoString) :
    ∃ s p : GoString,
      getFusePodName clusterName nodeId volumeId
        = .ok (clusterName ++ lit "-" ++ nodeId ++ lit "-" ++ s) ∧
      volumeId = p ++ s ∧ dash ∉ s ∧ (p = [] ∨ p.getLast? = some dash) ∧
      (dash ∈ volumeId ∨ s = volumeId) ∧
      (volumeId.getLast? ≠ some dash ∨ s = []) ∧
      1 ≤ (Split dash volumeId).length ∧
      index (Split dash volumeId) (((Split dash volumeId).length : Int) - 1) = .ok s := by
  obtain ⟨init, s, p, hs, hmem, hv, hp⟩ := Split_shape dash volumeId
  have hidx : index (Split dash volumeId) (((Split dash volumeId).length : Int) - 1) = .ok s := by
    rw [hs]; exact index_last init s
  have hp' : p = [] ∨ p.getLast? = some dash := by
    rcases hp with ⟨_, h⟩ | ⟨_, h⟩
    · exact Or.inl h
    · exact Or.inr h
  refine ⟨s, p, ?_, hv, hmem, hp', ?_, ?_, ?_, hidx⟩
  · simp only [getFusePodName, hidx, lit_dash]
    simp [Join, List.intercalate, List.intersperse, bind, Except.bind, pure, Except.pure]
  · rcases hp' with h | h
    · right; simp [hv, h]
    · left
      rw [hv]
      exact List.mem_append_left _ (List.mem_of_getLast?_eq_some h)
  · by_cases hse : s = []
    · exact Or.inr hse
    · left
      intro hl
      rw [hv, List.getLast?_append_of_ne_nil _ hse] at hl
      exact hmem (List.mem_of_getLast?_eq_some hl)
  · rw [hs]; simp

/-! ## Mount-point reconciliation and publish -/

/-- The test `isCorruptedDir` holds exactly when the `stat` of the directory fails
with an error of the corrupted-mount class. -/
theorem isCorruptedDir_iff {σ : Type} (S : System σ) (s : σ) (dir : GoString) :
    isCorruptedDir S s dir = true ↔ ∃ e, S.stat s dir = some e ∧ IsCorruptedMnt e = true := by
  unfold isCorruptedDir PathExists
  cases h : S.stat s dir with
  | none => simp
  | some e =>
    by_cases h1 : IsNotExist e = true
    · have h2 : IsCorruptedMnt e = false := by
        rcases e with ⟨m, _ | no⟩
        · simp [IsNotExist] at h1
        · cases no <;> simp_all [IsNotExist, IsCorruptedMnt]
      simp [h1, h2]
    · by_cases h2 : IsCorruptedMnt e = true <;> simp [h1, h2]

/-- A target that `ensureMountPoint` reports as mounted was not touched. -/
theorem ensureMountPoint_mounted_unchanged {σ : Type} (S : System σ) (w : World σ)
    (targetPath : GoString) (h : (ensureMountPoint S w targetPath).1 = (false, none)) :
    (ensureMountPoint S w targetPath).2 = w ∧
      S.isLikelyNotMountPoint w.sys targetPath = (false, none) := by
  unfold ensureMountPoint at h ⊢
  rcases hn : S.isLikelyNotMountPoint w.sys targetPath with ⟨nm, _ | e⟩
  · simp only [hn] at h ⊢
    simp_all
  · simp only [hn] at h ⊢
    split_ifs at h ⊢ with h1 h2
    · simp only [World.issue] at h
      split at h <;> simp_all [Wrapf, Wrap]
    · simp only [World.issue] at h
      split at h <;> simp_all [Wrapf, Wrap]
    · simp_all [Wrapf, Wrap]

/-- The calls `ensureMountPoint` issues: none, one `mkdirAll` or one
`unmount` of the target. -/
theorem ensureMountPoint_log {σ : Type} (S : System σ) (w : World σ) (targetPath : GoString) :
    (ensureMountPoint S w targetPath).2.log = w.log ∨
    (ensureMountPoint S w targetPath).2.log = w.log ++ [.mkdirAll targetPath] ∨
    (ensureMountPoint S w targetPath).2.log = w.log ++ [.unmount targetPath] := by
  unfold ensureMountPoint
  rcases hn : S.isLikelyNotMountPoint w.sys targetPath with ⟨nm, _ | e⟩
  · simp
  · simp only
    split_ifs with h1 h2
    · right; left
      simp only [World.issue]
      split <;> rfl
    · right; right
      simp only [World.issue]
      split <;> rfl
    · left; rfl

/-- The calls of a publish: those of `ensureMountPoint`, followed by the bind
mount when `ensureMountPoint` returned `(true, nil)`. -/
theorem NodePublishVolume_log {σ : Type} (S : System σ) (w : World σ)
    (req : NodePublishVolumeRequest) :
    (NodePublishVolume S w req).2.log =
      (ensureMountPoint S w req.TargetPath).2.log ++
        (if (ensureMountPoint S w req.TargetPath).1 = (true, none)
          then [.execMountBind req.StagingTargetPath req.TargetPath] else []) := by
  rcases he : ensureMountPoint S w req.TargetPath with ⟨⟨nm, err⟩, w1⟩
  simp only [NodePublishVolume, he]
  cases err with
  | some e => simp
  | none =>
    cases nm with
    | false => simp
    | true =>
      simp only [Bool.not_true, Bool.false_eq_true, if_false, World.issue, if_true]
      split <;> [split_ifs; skip] <;> rfl

/-- C8: publishing onto a target that is already mounted is a no-op that
succeeds. When `ensureMountPoint` returns `(false, nil)`, which is the case
when the inspection of the target succeeds and reports a mount point,
`NodePublishVolume` returns success and leaves the world as it was: no call is
issued and the system state is unchanged. In every case the calls of a
publish contain a bind mount only if `ensureMountPoint` returned
`(true, nil)`, and then it is the bind of the staging path onto the target. -/
theorem NodePublishVolume_mounted_target_no_op {σ : Type} (S : System σ) (w : World σ)
    (req : NodePublishVolumeRequest) :
    ((ensureMountPoint S w req.TargetPath).1 = (false, none) →
      NodePublishVolume S w req = (.ok, w)) ∧
    (S.isLikelyNotMountPoint w.sys req.TargetPath = (false, none) →
      NodePublishVolume S w req = (.ok, w)) ∧
    (∃ calls, (NodePublishVolume S w req).2.log = w.log ++ calls ∧
      ∀ src dst, Call.execMountBind src dst ∈ calls →
        (ensureMountPoint S w req.TargetPath).1 = (true, none) ∧
          src = req.StagingTargetPath ∧ dst = req.TargetPath ∧
          calls.count (.execMountBind src dst) = 1) := by
  have key : (ensureMountPoint S w req.TargetPath).1 = (false, none) →
      NodePublishVolume S w req = (.ok, w) := by
    intro h
    have h2 := (ensureMountPoint_mounted_unchanged S w req.TargetPath h).1
    rcases he : ensureMountPoint S w req.TargetPath with ⟨⟨nm, err⟩, w1⟩
    rw [he] at h h2
    simp only [Prod.mk.injEq] at h
    obtain ⟨rfl, rfl⟩ := h
    simp only at h2
    simp [NodePublishVolume, he, h2]
  refine ⟨key, ?_, ?_⟩
  · intro h
    apply key
    unfold ensureMountPoint
    simp [h]
  · have hlog := ensureMountPoint_log S w req.TargetPath
    rw [NodePublishVolume_log]
    have hc : ∃ c, (ensureMountPoint S w req.TargetPath).2.log = w.log ++ c ∧
        ∀ a b, Call.execMountBind a b ∉ c := by
      rcases hlog with h | h | h
      · exact ⟨[], by simp [h], by simp⟩
      · exact ⟨[.mkdirAll req.TargetPath], h, by simp⟩
      · exact ⟨[.unmount req.TargetPath], h, by simp⟩
    obtain ⟨c, hc, hno⟩ := hc
    rw [hc, List.append_assoc]
    refine ⟨_, rfl, ?_⟩
    intro src dst hmem
    rcases List.mem_append.mp hmem with hm | hm
    · exact absurd hm (hno _ _)
    · split_ifs at hm with ht
      · simp only [List.mem_singleton, Call.execMountBind.injEq] at hm
        obtain ⟨rfl, rfl⟩ := hm
        refine ⟨ht, rfl, rfl, ?_⟩
        rw [List.count_append, List.count_eq_zero_of_not_mem (hno _ _), if_pos ht]
        simp
      · simp at hm

/-- C9: the result of `NodePublishVolume` is always one of ok, Internal,
PermissionDenied and InvalidArgument. An error of `ensureMountPoint` gives
Internal with that error's text. After `ensureMountPoint` returned
`(true, nil)`, a failure of the bind mount gives PermissionDenied when it is a
permission error (whatever its text), otherwise InvalidArgument when its text
contains `invalid argument`, otherwise Internal. The result is ok exactly
when `ensureMountPoint` returned `(false, nil)`, or returned `(true, nil)` and
the bind mount succeeded. -/
theorem NodePublishVolume_result_classification {σ : Type} (S : System σ) (w : World σ)
    (req : NodePublishVolumeRequest) :
    ((NodePublishVolume S w req).1 = .ok ∨
      ∃ m, (NodePublishVolume S w req).1 = .error .Internal m ∨
        (NodePublishVolume S w req).1 = .error .PermissionDenied m ∨
        (NodePublishVolume S w req).1 = .error .InvalidArgument m) ∧
    (∀ e, (ensureMountPoint S w req.TargetPath).1.2 = some e →
      (NodePublishVolume S w req).1 = .error .Internal e.msg) ∧
    ((ensureMountPoint S w req.TargetPath).1 = (true, none) →
      ∀ e, (S.execMountBind (ensureMountPoint S w req.TargetPath).2.sys
          req.StagingTargetPath req.TargetPath).1 = some e →
        (IsPermission e = true →
          (NodePublishVolume S w req).1 = .error .PermissionDenied e.msg) ∧
        (IsPermission e = false → Contains e.msg (lit "invalid argument") = true →
          (NodePublishVolume S w req).1 = .error .InvalidArgument e.msg) ∧
        (IsPermission e = false → Contains e.msg (lit "invalid argument") = false →
          (NodePublishVolume S w req).1 = .error .Internal e.msg)) ∧
    ((NodePublishVolume S w req).1 = .ok ↔
      ((ensureMountPoint S w req.TargetPath).1 = (false, none) ∨
        ((ensureMountPoint S w req.TargetPath).1 = (true, none) ∧
          (S.execMountBind (ensureMountPoint S w req.TargetPath).2.sys
            req.StagingTargetPath req.TargetPath).1 = none))) := by
  rcases he : ensureMountPoint S w req.TargetPath with ⟨⟨nm, err⟩, w1⟩
  simp only [NodePublishVolume, he]
  cases err with
  | some e => simp
  | none =>
    cases nm with
    | false => simp
    | true =>
      simp only [World.issue]
      rcases hb : S.execMountBind w1.sys req.StagingTargetPath req.TargetPath with ⟨_ | e, s2⟩
      · simp
      · by_cases hp : IsPermission e = true
        · simp [hp]
        · by_cases hc : Contains e.msg (lit "invalid argument") = true
          · simp [hp, hc]
          · simp [hp, hc]

/-- The decision of `ensureMountPoint` after an inspection that failed with
an error other than not-exist, in terms of the `stat` that `isCorruptedDir`
makes: an error of the corrupted-mount class there gives one unmount and,
if that succeeds, `(true, nil)`; no error or an error outside the class gives
no call and a non-nil error. -/
theorem ensureMountPoint_by_stat {σ : Type} (S : System σ) (w : World σ)
    (targetPath : GoString) (notMnt : Bool) (e : GoError)
    (hins : S.isLikelyNotMountPoint w.sys targetPath = (notMnt, some e))
    (hne : IsNotExist e = false) :
    ((∃ e2, S.stat w.sys targetPath = some e2 ∧ IsCorruptedMnt e2 = true) →
      (ensureMountPoint S w targetPath).2.log = w.log ++ [.unmount targetPath] ∧
      (ensureMountPoint S w targetPath).2.sys = (S.unmount w.sys targetPath).2 ∧
      ((S.unmount w.sys targetPath).1 = none →
        (ensureMountPoint S w targetPath).1 = (true, none))) ∧
    ((S.stat w.sys targetPath = none ∨
        ∃ e2, S.stat w.sys targetPath = some e2 ∧ IsCorruptedMnt e2 = false) →
      (ensureMountPoint S w targetPath).2 = w ∧
      (ensureMountPoint S w targetPath).1.2 ≠ none) ∧
    (S.stat w.sys targetPath = some e →
      (IsCorruptedMnt e = true →
        (ensureMountPoint S w targetPath).2.log = w.log ++ [.unmount targetPath] ∧
        ((S.unmount w.sys targetPath).1 = none →
          (ensureMountPoint S w targetPath).1 = (true, none))) ∧
      (IsCorruptedMnt e = false →
        (ensureMountPoint S w targetPath).2 = w ∧
        (ensureMountPoint S w targetPath).1.2 ≠ none)) := by
  have hyes : isCorruptedDir S w.sys targetPath = true →
      (ensureMountPoint S w targetPath).2.log = w.log ++ [.unmount targetPath] ∧
      (ensureMountPoint S w targetPath).2.sys = (S.unmount w.sys targetPath).2 ∧
      ((S.unmount w.sys targetPath).1 = none →
        (ensureMountPoint S w targetPath).1 = (true, none)) := by
    intro hc
    simp only [ensureMountPoint, hins, hne, hc, World.issue, if_true, Bool.false_eq_true,
      if_false]
    rcases S.unmount w.sys targetPath with ⟨_ | e1, s1⟩ <;> simp
  have hno : isCorruptedDir S w.sys targetPath = false →
      (ensureMountPoint S w targetPath).2 = w ∧
      (ensureMountPoint S w targetPath).1.2 ≠ none := by
    intro hc
    simp [ensureMountPoint, hins, hne, hc, Wrapf, Wrap]
  have hiff := isCorruptedDir_iff S w.sys targetPath
  refine ⟨fun h => hyes (hiff.mpr h), ?_, ?_⟩
  · intro h
    apply hno
    rw [Bool.eq_false_iff]
    intro hc
    obtain ⟨e3, h3, h4⟩ := hiff.mp hc
    rcases h with h | ⟨e2, h2, h5⟩
    · rw [h] at h3; exact absurd h3 (by simp)
    · rw [h2] at h3
      cases h3
      rw [h4] at h5
      exact absurd h5 (by simp)
  · intro hs
    refine ⟨fun hc => ?_, fun hc => ?_⟩
    · have := hyes (hiff.mpr ⟨e, hs, hc⟩)
      exact ⟨this.1, this.2.2⟩
    · apply hno
      rw [Bool.eq_false_iff]
      intro hc2
      obtain ⟨e3, h3, h4⟩ := hiff.mp hc2
      rw [hs] at h3
      cases h3
      rw [h4] at hc
      exact absurd hc (by simp)

/-- The corrupted-mount class of `mount.IsCorruptedMnt` is made of the error
numbers ENOTCONN, ESTALE, EIO and EACCES. -/
theorem IsCorruptedMnt_iff (e : GoError) :
    IsCorruptedMnt e = true ↔
      (e.errno = some .ENOTCONN ∨ e.errno = some .ESTALE ∨ e.errno = some Errno.EIO ∨
        e.errno = some .EACCES) := by
  simp [IsCorruptedMnt, or_assoc]

/-- An error of the corrupted-mount class is not a not-exist error. -/
theorem IsNotExist_of_corrupted (e : GoError) (h : IsCorruptedMnt e = true) :
    IsNotExist e = false := by
  rcases e with ⟨m, _ | no⟩
  · simp [IsNotExist]
  · cases no <;> simp_all [IsNotExist, IsCorruptedMnt]

/-- C7 (as amended): let the inspection be the one of the mount library, a
`stat` of the target and then of its parent directory, and let the
corrupted-mount class be the one of `mount.IsCorruptedMnt` (ENOTCONN, ESTALE,
EIO, EACCES). When the `stat` of the target itself fails with an error of
that class, the inspection fails with that error, the target is unmounted
exactly once (the only call issued) and, if the unmount succeeds, the result
is `(true, nil)`. When the target's `stat` succeeds and the inspection fails
with an error of the class that comes from the parent directory, nothing is
issued, the world is unchanged and a non-nil error is returned. When the
inspection fails with an error that is neither not-exist nor of the class,
nothing is issued, the world is unchanged and a non-nil error is returned.
An error of the inspection is always the one of the target's `stat` or, that
`stat` having succeeded, the one of the parent's. -/
theorem ensureMountPoint_corrupted_target_unmounted {σ : Type} (S : System σ) (w : World σ)
    (targetPath : GoString) (dev : GoString → Nat) (parentOf : GoString → GoString)
    (hlib : S.isLikelyNotMountPoint w.sys targetPath
      = IsLikelyNotMountPoint (S.stat w.sys) dev parentOf targetPath) :
    (∀ e, S.stat w.sys targetPath = some e → IsCorruptedMnt e = true →
      S.isLikelyNotMountPoint w.sys targetPath = (true, some e) ∧
      (ensureMountPoint S w targetPath).2.log = w.log ++ [.unmount targetPath] ∧
      (ensureMountPoint S w targetPath).2.sys = (S.unmount w.sys targetPath).2 ∧
      ((S.unmount w.sys targetPath).1 = none →
        (ensureMountPoint S w targetPath).1 = (true, none))) ∧
    (∀ e, S.stat w.sys targetPath = none → S.stat w.sys (parentOf targetPath) = some e →
      IsCorruptedMnt e = true →
      S.isLikelyNotMountPoint w.sys targetPath = (true, some e) ∧
      (ensureMountPoint S w targetPath).2 = w ∧
      (ensureMountPoint S w targetPath).1.2 ≠ none) ∧
    (∀ notMnt e, S.isLikelyNotMountPoint w.sys targetPath = (notMnt, some e) →
      IsNotExist e = false → IsCorruptedMnt e = false →
      (ensureMountPoint S w targetPath).2 = w ∧
      (ensureMountPoint S w targetPath).1.2 ≠ none) ∧
    (∀ notMnt e, S.isLikelyNotMountPoint w.sys targetPath = (notMnt, some e) →
      (S.stat w.sys targetPath = some e ∨
        (S.stat w.sys targetPath = none ∧ S.stat w.sys (parentOf targetPath) = some e))) := by
  have hsrc : ∀ notMnt e, S.isLikelyNotMountPoint w.sys targetPath = (notMnt, some e) →
      (S.stat w.sys targetPath = some e ∨
        (S.stat w.sys targetPath = none ∧ S.stat w.sys (parentOf targetPath) = some e)) := by
    intro notMnt e hins
    rw [hlib] at hins
    unfold IsLikelyNotMountPoint at hins
    cases hs : S.stat w.sys targetPath with
    | some e1 =>
      simp only [hs, Prod.mk.injEq, Option.some.injEq] at hins
      exact Or.inl (by rw [hins.2])
    | none =>
      cases hp : S.stat w.sys (parentOf targetPath) with
      | some e1 =>
        simp only [hs, hp, Prod.mk.injEq, Option.some.injEq] at hins
        exact Or.inr ⟨rfl, by rw [hins.2]⟩
      | none =>
        simp only [hs, hp] at hins
        split_ifs at hins <;> simp at hins
  refine ⟨?_, ?_, ?_, hsrc⟩
  · intro e hs hc
    have hins : S.isLikelyNotMountPoint w.sys targetPath = (true, some e) := by
      rw [hlib]; simp [IsLikelyNotMountPoint, hs]
    exact ⟨hins, (ensureMountPoint_by_stat S w targetPath true e hins
      (IsNotExist_of_corrupted e hc)).1 ⟨e, hs, hc⟩⟩
  · intro e hs hp hc
    have hins : S.isLikelyNotMountPoint w.sys targetPath = (true, some e) := by
      rw [hlib]; simp [IsLikelyNotMountPoint, hs, hp]
    exact ⟨hins, (ensureMountPoint_by_stat S w targetPath true e hins
      (IsNotExist_of_corrupted e hc)).2.1 (Or.inl hs)⟩
  · intro notMnt e hins hne hc
    rcases hsrc notMnt e hins with hs | ⟨hs, -⟩
    · exact (ensureMountPoint_by_stat S w targetPath notMnt e hins hne).2.1
        (Or.inr ⟨e, hs, hc⟩)
    · exact (ensureMountPoint_by_stat S w targetPath notMnt e hins hne).2.1 (Or.inl hs)

/-! ## Unstage -/

/-- C3 (as amended): `NodeUnstageVolume` always returns, and its result is ok
or Internal. It is ok exactly when the persistent volume and the storage class
are found and the pod delete either succeeds or fails with an error whose
text contains `not found`; a failed lookup and any other delete failure are
returned to the caller as Internal. The outcome of the fallback umount has no
part in the result. -/
theorem NodeUnstageVolume_ok_or_internal {σ : Type} (S : System σ) (nodeId : GoString)
    (w : World σ) (req : NodeUnstageVolumeRequest) :
    ∃ r w1, NodeUnstageVolume S nodeId w req = .ok (r, w1) ∧
      (r = .ok ∨ ∃ m, r = .error .Internal m) ∧
      (r = .ok ↔ ∃ sc ps name,
        S.getPersistentVolume w.sys req.VolumeId = .ok sc ∧
        S.getStorageClass w.sys sc = .ok ps ∧
        getFusePodName (ps.at (lit "alluxioClusterName")) nodeId req.VolumeId = .ok name ∧
        ((S.deletePod w.sys (ps.at (lit "alluxioClusterNamespace")) name).1 = none ∨
          ∃ e, (S.deletePod w.sys (ps.at (lit "alluxioClusterNamespace")) name).1 = some e ∧
            Contains e.msg (lit "not found") = true)) := by
  rcases hpv : S.getPersistentVolume w.sys req.VolumeId with e | sc
  · simp [NodeUnstageVolume, hpv]
  · rcases hsc : S.getStorageClass w.sys sc with e | ps
    · simp [NodeUnstageVolume, hpv, hsc]
    · obtain ⟨name, hname⟩ : ∃ name,
          getFusePodName (ps.at (lit "alluxioClusterName")) nodeId req.VolumeId = .ok name := by
        obtain ⟨s, p, h, -⟩ :=
          getFusePodName_total_name (ps.at (lit "alluxioClusterName")) nodeId req.VolumeId
        exact ⟨_, h⟩
      rcases hd : S.deletePod w.sys (ps.at (lit "alluxioClusterNamespace")) name with ⟨_ | e, s1⟩
      · simp [NodeUnstageVolume, hpv, hsc, hname, World.issue, hd]
      · by_cases hc : Contains e.msg (lit "not found") = true
        · simp [NodeUnstageVolume, hpv, hsc, hname, World.issue, hd, hc]
        · simp [NodeUnstageVolume, hpv, hsc, hname, World.issue, hd, hc]

/-- C10: in `NodeUnstageVolume`, after both lookups succeeded, a pod delete
that fails with an error whose text contains `not found` is followed by one
umount of the staging target path of the request, and the call returns ok
whatever that umount returns; a pod delete that succeeds is followed by no
umount, the delete being the only call issued. -/
theorem NodeUnstageVolume_not_found_fallback {σ : Type} (S : System σ) (nodeId : GoString)
    (w : World σ) (req : NodeUnstageVolumeRequest) (sc : GoString) (ps : StringMap)
    (name : GoString)
    (hpv : S.getPersistentVolume w.sys req.VolumeId = .ok sc)
    (hsc : S.getStorageClass w.sys sc = .ok ps)
    (hname : getFusePodName (ps.at (lit "alluxioClusterName")) nodeId req.VolumeId = .ok name) :
    (∀ e, (S.deletePod w.sys (ps.at (lit "alluxioClusterNamespace")) name).1 = some e →
      Contains e.msg (lit "not found") = true →
      NodeUnstageVolume S nodeId w req = .ok (.ok,
        { sys := (S.execUmount (S.deletePod w.sys (ps.at (lit "alluxioClusterNamespace")) name).2
            req.StagingTargetPath).2
          log := w.log ++ [.deletePod (ps.at (lit "alluxioClusterNamespace")) name,
            .execUmount req.StagingTargetPath] })) ∧
    ((S.deletePod w.sys (ps.at (lit "alluxioClusterNamespace")) name).1 = none →
      NodeUnstageVolume S nodeId w req = .ok (.ok,
        { sys := (S.deletePod w.sys (ps.at (lit "alluxioClusterNamespace")) name).2
          log := w.log ++ [.deletePod (ps.at (lit "alluxioClusterNamespace")) name] })) := by
  constructor
  · intro e hd hc
    simp [NodeUnstageVolume, hpv, hsc, hname, World.issue, hd, hc]
  · intro hd
    simp [NodeUnstageVolume, hpv, hsc, hname, World.issue, hd]

/-! ## The code on concrete requests -/

/-- C1: with a cluster name of seventy bytes the two paths disagree on the
name. Stage succeeds and creates the pod under the first 64 bytes of the full
name; unstage then asks to delete the full, untruncated name, gets `not found`,
falls back to the umount and returns ok, and the pod that stage created is
still in the store. -/
theorem stage_then_unstage_long_name_leaves_pod :
    (do
      let r1 ← NodeStageVolume (scripted (healthy podTemplate longClusterName)) (lit "n1")
        (World.start []) (stageRequest longClusterName (lit "pvc-123"))
      let r2 ← NodeUnstageVolume (scripted (healthy podTemplate longClusterName)) (lit "n1")
        r1.2 (unstageRequest (lit "pvc-123"))
      pure (r1.1, r2.1, r2.2.sys.map Pod.Name, r2.2.log))
    = .ok (RpcResult.ok, RpcResult.ok, [List.replicate 64 (97 : UInt8)],
        [Call.createPod (lit "default") (List.replicate 64 97),
         Call.deletePod (lit "default") (longClusterName ++ lit "-n1-123"),
         Call.execUmount (lit "/staging")]) := by
  decide

/-- C2: for the volume `pvc-123` on the node `n1` of the cluster `c1` the full
name is `c1-n1-123`, nine bytes long, and building the pod object faults on the
slice `[:64]` although the template is well formed. -/
theorem getAndCompleteFusePodObj_short_name_faults :
    getFusePodName (lit "c1") (lit "n1") (lit "pvc-123") = .ok (lit "c1-n1-123") ∧
    getAndCompleteFusePodObj (scripted (healthy podTemplate (lit "c1"))) (lit "n1") []
        (stageRequest (lit "c1") (lit "pvc-123"))
      = .error (.sliceOutOfRange 64 9) := by
  decide

/-- C4: a template that decodes without error to an object of kind
`Deployment` makes `getFusePodObj` return a nil pod together with a nil error;
`getAndCompleteFusePodObj` then goes on and faults on the nil pod, and so does
`NodeStageVolume`, instead of returning an error. -/
theorem getFusePodObj_other_kind_nil_error :
    getFusePodObj (scripted (healthy deploymentTemplate longClusterName)) []
        { Namespace := lit "default", Name := longClusterName }
      = .ok (none, none) ∧
    getAndCompleteFusePodObj (scripted (healthy deploymentTemplate longClusterName)) (lit "n1") []
        (stageRequest longClusterName (lit "pvc-123"))
      = .error .nilDereference ∧
    (NodeStageVolume (scripted (healthy deploymentTemplate longClusterName)) (lit "n1")
        (World.start []) (stageRequest longClusterName (lit "pvc-123"))).map Prod.fst
      = .error .nilDereference := by
  decide

/-- C6: on the pod store, with a well-formed template and a ready mount, the
first `NodeStageVolume` for the volume `pvc-123` on the node `n1` of the
cluster `c1` already faults on the slice `[:64]`: it neither returns success
nor creates a pod. -/
theorem NodeStageVolume_short_name_faults :
    (NodeStageVolume (scripted (healthy podTemplate (lit "c1"))) (lit "n1")
        (World.start []) (stageRequest (lit "c1") (lit "pvc-123"))).map Prod.fst
      = .error (.sliceOutOfRange 64 9) := by
  decide

/-- With a full name of at least 64 bytes two stage calls in a row both
succeed and the store holds one pod: the second create is answered with
`already exists`, which counts as success. -/
theorem NodeStageVolume_twice_long_name :
    (do
      let r1 ← NodeStageVolume (scripted (healthy podTemplate longClusterName)) (lit "n1")
        (World.start []) (stageRequest longClusterName (lit "pvc-123"))
      let r2 ← NodeStageVolume (scripted (healthy podTemplate longClusterName)) (lit "n1")
        r1.2 (stageRequest longClusterName (lit "pvc-123"))
      pure (r1.1, r2.1, r2.2.sys.length, r2.2.log))
    = .ok (RpcResult.ok, RpcResult.ok, 1,
        [Call.createPod (lit "default") (List.replicate 64 97),
         Call.createPod (lit "default") (List.replicate 64 97)]) := by
  decide

/-- The call `createFusePodIfNotExist` returns nil exactly when the create succeeds or
fails with an error whose text contains `already exists`; every other create
failure is returned, wrapped. -/
theorem createFusePodIfNotExist_nil_iff {σ : Type} (S : System σ) (w : World σ) (fusePod : Pod) :
    ((createFusePodIfNotExist S w fusePod).1 = none ↔
      ((S.createPod w.sys fusePod).1 = none ∨
        ∃ e, (S.createPod w.sys fusePod).1 = some e ∧
          Contains e.msg (lit "already exists") = true)) ∧
    (∀ e, (S.createPod w.sys fusePod).1 = some e →
      Contains e.msg (lit "already exists") = false →
      (createFusePodIfNotExist S w fusePod).1 = Wrap (some e) (lit "Error creating Fuse pod.")) := by
  simp only [createFusePodIfNotExist, World.issue]
  rcases hc : S.createPod w.sys fusePod with ⟨_ | e, s1⟩
  · simp
  · by_cases h : Contains e.msg (lit "already exists") = true <;> simp [h, Wrap]

/-- C3, refuted as stated: when the persistent volume of the request cannot be
read, or its storage class cannot, `NodeUnstageVolume` returns the Internal
error to the caller and issues nothing. -/
theorem NodeUnstageVolume_lookup_failure_is_returned :
    (NodeUnstageVolume
        (scripted { healthy podTemplate (lit "c1") with persistentVolume := .error volumeNotFound })
        (lit "n1") (World.start []) (unstageRequest (lit "pvc-123"))).map
          (fun r => (r.1, r.2.log))
      = .ok (.error .Internal (lit "persistentvolumes pvc-123 not found"), []) ∧
    (NodeUnstageVolume
        (scripted { healthy podTemplate (lit "c1") with storageClass := .error classNotFound })
        (lit "n1") (World.start []) (unstageRequest (lit "pvc-123"))).map
          (fun r => (r.1, r.2.log))
      = .ok (.error .Internal (lit "storageclasses alluxio not found"), []) := by
  decide

/-- C7, refuted as stated: the target `/mnt/target` answers its own `stat`,
its parent `/mnt` answers with a stale handle. The inspection of the mount
library fails with that stale-handle error, which is of the corrupted-mount
class, and `ensureMountPoint` issues no unmount and returns an error. -/
theorem ensureMountPoint_stale_parent_not_unmounted :
    staleParent.isLikelyNotMountPoint [] (lit "/mnt/target")
      = IsLikelyNotMountPoint (staleParent.stat []) (fun _ => 0) parentDir (lit "/mnt/target") ∧
    parentDir (lit "/mnt/target") = lit "/mnt" ∧
    staleParent.stat [] (lit "/mnt/target") = none ∧
    staleParent.isLikelyNotMountPoint [] (lit "/mnt/target") = (true, some staleParentError) ∧
    IsCorruptedMnt staleParentError = true ∧ IsNotExist staleParentError = false ∧
    (ensureMountPoint staleParent (World.start []) (lit "/mnt/target")).2.log = [] ∧
    (ensureMountPoint staleParent (World.start []) (lit "/mnt/target")).1
      = (true, Wrapf (some staleParentError)
          (lit "Failed to check if target path /mnt/target is a mount point.")) := by
  decide

/-- The target's own `stat` reports the stale handle: one unmount, then
`(true, nil)`. -/
theorem ensureMountPoint_corrupted_target_unmounted_witness :
    (ensureMountPoint
        (scripted { healthy podTemplate (lit "c1") with
          notMnt := (true, some staleError), stat := some staleError })
        (World.start []) (lit "/target")).2.log = [.unmount (lit "/target")] ∧
    (ensureMountPoint
        (scripted { healthy podTemplate (lit "c1") with
          notMnt := (true, some staleError), stat := some staleError })
        (World.start []) (lit "/target")).1 = (true, none) :=
  ⟨((ensureMountPoint_corrupted_target_unmounted
      (scripted { healthy podTemplate (lit "c1") with
        notMnt := (true, some staleError), stat := some staleError })
      (World.start []) (lit "/target") (fun _ => 0) parentDir rfl).1
        staleError rfl (by decide)).2.1,
   ((ensureMountPoint_corrupted_target_unmounted
      (scripted { healthy podTemplate (lit "c1") with
        notMnt := (true, some staleError), stat := some staleError })
      (World.start []) (lit "/target") (fun _ => 0) parentDir rfl).1
        staleError rfl (by decide)).2.2.2 rfl⟩

/-- A `stat` of the target that is refused with a permission error is of the
corrupted-mount class as well: the target is unmounted and `(true, nil)`
returned. -/
theorem ensureMountPoint_permission_denied_stat_unmounts :
    IsCorruptedMnt statPermissionError = true ∧
    (ensureMountPoint
        (scripted { healthy podTemplate (lit "c1") with
          notMnt := (true, some statPermissionError), stat := some statPermissionError })
        (World.start []) (lit "/target")).2.log = [.unmount (lit "/target")] ∧
    (ensureMountPoint
        (scripted { healthy podTemplate (lit "c1") with
          notMnt := (true, some statPermissionError), stat := some statPermissionError })
        (World.start []) (lit "/target")).1 = (true, none) := by
  decide

/-- A target that is already mounted: publish returns ok and issues nothing. -/
theorem NodePublishVolume_mounted_target_no_op_witness :
    NodePublishVolume (scripted { healthy podTemplate (lit "c1") with notMnt := (false, none) })
      (World.start []) publishRequest = (.ok, World.start []) :=
  (NodePublishVolume_mounted_target_no_op
    (scripted { healthy podTemplate (lit "c1") with notMnt := (false, none) })
    (World.start []) publishRequest).1 rfl

/-- A bind-mount failure that is a permission error and mentions an invalid
argument is reported as PermissionDenied. -/
theorem NodePublishVolume_result_classification_witness :
    (NodePublishVolume
      (scripted { healthy podTemplate (lit "c1") with mountBind := some permissionError })
      (World.start []) publishRequest).1 = .error .PermissionDenied permissionError.msg ∧
    Contains permissionError.msg (lit "invalid argument") = true :=
  ⟨((NodePublishVolume_result_classification
      (scripted { healthy podTemplate (lit "c1") with mountBind := some permissionError })
      (World.start []) publishRequest).2.2.1 rfl permissionError rfl).1 (by decide),
   by decide⟩

/-- The pod is not in the store: unstage deletes, falls back to one umount of
the staging path and returns ok. -/
theorem NodeUnstageVolume_not_found_fallback_witness :
    NodeUnstageVolume (scripted (healthy podTemplate (lit "c1"))) (lit "n1") (World.start [])
        (unstageRequest (lit "pvc-123"))
      = .ok (.ok, { sys := [], log := [.deletePod (lit "default") (lit "c1-n1-123"),
                                      .execUmount (lit "/staging")] }) :=
  (NodeUnstageVolume_not_found_fallback (scripted (healthy podTemplate (lit "c1"))) (lit "n1")
    (World.start []) (unstageRequest (lit "pvc-123")) (lit "alluxio") (clusterParams (lit "c1"))
    (lit "c1-n1-123") rfl rfl (by decide)).1
      { msg := lit "pods " ++ [quote] ++ lit "c1-n1-123" ++ [quote] ++ lit " not found"
        errno := none } (by decide) (by decide)

/-- The slice `[:64]` in `getAndCompleteFusePodObj`: once the template is
read as a pod, a full name shorter than 64 bytes faults, and a full name of 64
bytes or more gives a pod named by its first 64 bytes whenever the call
returns a pod. -/
theorem getAndCompleteFusePodObj_name {σ : Type} (S : System σ) (nodeId : GoString) (s : σ)
    (req : NodeStageVolumeRequest) (pod : Pod) (fullName : GoString)
    (hobj : getFusePodObj S s
      { Namespace := req.VolumeContext.at (lit "alluxioClusterNamespace")
        Name := req.VolumeContext.at (lit "alluxioClusterName") } = .ok (some pod, none))
    (hname : getFusePodName (req.VolumeContext.at (lit "alluxioClusterName")) nodeId req.VolumeId
      = .ok fullName) :
    (fullName.length < 64 →
      getAndCompleteFusePodObj S nodeId s req = .error (.sliceOutOfRange 64 fullName.length)) ∧
    (64 ≤ fullName.length → ∀ p err,
      getAndCompleteFusePodObj S nodeId s req = .ok (some p, err) →
        p.Name = fullName.take 64) := by
  constructor
  · intro hlt
    have hs : sliceTo fullName 64 = .error (.sliceOutOfRange 64 fullName.length) := by
      simp [sliceTo, Nat.not_le.mpr hlt]
    simp [getAndCompleteFusePodObj, hobj, hname, hs, bind, Except.bind, pure, Except.pure]
  · intro hge p err
    have hs : sliceTo fullName 64 = .ok (fullName.take 64) := by
      simp [sliceTo, hge]
    simp only [getAndCompleteFusePodObj, hobj, hname, hs, bind, Except.bind, pure, Except.pure,
      Option.isSome_none, Bool.false_eq_true, if_false]
    rcases hi : index pod.Containers 0 with e | c0
    · simp
    · rcases ha : setIndex c0.Args 2 req.StagingTargetPath with e | args
      · simp [ha]
      · simp only [ha, Except.ok.injEq, Prod.mk.injEq, Option.some.injEq]
        rintro ⟨rfl, -⟩
        rfl

end Alluxio
